import Mathlib

/-!
Shallow embedding of the pagination-aggregation, validation and caching logic of
`server.py` (Flask backend, endpoint `/api/airtable/records`, class `SimpleCache`,
function `validate_airtable_params`, and the error mapping of `/api/chat`),
together with the configuration constants of `config.py` that they use.

Modelling conventions:
  * Python dicts are association lists `List (String × _)` with first-match lookup,
    update-in-place-or-append assignment, and delete-by-key removal (Python dict
    keys are unique, so removal of all matches coincides with `del`).
  * JSON field values are the opaque inductive `JVal`.
  * `time.time()` is an explicit `Int` parameter threaded to `get`/`set`.
  * The md5 hashing in `SimpleCache._generate_key` is not modelled: the cache key
    is identified with the pre-image string `f"{base_id}:{table_id}:{filter or ''}:{max_records}"`,
    which determines the md5 digest.
  * The upstream Airtable API is an oracle `Nat → PageRequest → UpstreamOutcome`
    giving, for the i-th HTTP request of the loop (0-based) with the parameters the
    loop built, either a parsed 2xx JSON body or a `requests` exception
    (`raise_for_status` turns a 4xx/5xx reply into such an exception, so every
    non-ok outcome is one `FailKind`).
  * The `sort[0][field]`/`sort[0][direction]` query parameters added from
    `AppConfig.get_table_config` are forwarded verbatim to the upstream and never
    read again; they are omitted from `PageRequest` (they influence nothing the
    loop observes beyond what the oracle already captures).
  * `logger` calls, CORS, and static-file routes are side-effect-free for the
    modelled state and are dropped.
-/

/-- JSON field values carried by upstream records (opaque payload). -/
inductive JVal where
  | str (s : String)
  | num (n : Int)
  | bool (b : Bool)
  | null
deriving DecidableEq, Repr

/-- A Python dict with `String` keys, as an association list (unique keys,
first-match lookup). -/
abbrev Dict := List (String × JVal)

/-- First-match lookup, `d.get(k)` / `d[k]`. -/
def alistGet {α : Type} : List (String × α) → String → Option α
  | [], _ => none
  | (k', v) :: t, k => if k' = k then some v else alistGet t k

/-- Python dict assignment `d[k] = v`: overwrite in place if the key exists,
else append. -/
def alistSet {α : Type} : List (String × α) → String → α → List (String × α)
  | [], k, v => [(k, v)]
  | (k', v') :: t, k, v => if k' = k then (k, v) :: t else (k', v') :: alistSet t k v

/-- Python `del d[k]` (keys are unique, so removing every match is the same). -/
def alistRemove {α : Type} : List (String × α) → String → List (String × α)
  | [], _ => []
  | (k', v) :: t, k => if k' = k then alistRemove t k else (k', v) :: alistRemove t k

/-- Python truthiness of an optional string (`None` and `""` are falsy). -/
def pyTruthy : Option String → Bool
  | none => false
  | some s => decide (s ≠ "")

/-- `p` is a prefix of `l` (character lists). -/
def chStarts : List Char → List Char → Bool
  | _, [] => true
  | [], _ :: _ => false
  | c :: cs, p :: ps => c == p && chStarts cs ps

/-- `p` occurs as a contiguous substring of `l` (character lists). -/
def chHasSub : List Char → List Char → Bool
  | [], p => p.isEmpty
  | c :: t, p => chStarts (c :: t) p || chHasSub t p

/-- Python `pat in hay` on strings. -/
def strContainsSub (hay pat : String) : Bool :=
  chHasSub hay.data pat.data

/-- Python `s.lower()` (ASCII letters; the blocklist patterns are ASCII). -/
def pyLower (s : String) : String :=
  ⟨s.data.map Char.toLower⟩

/-- Python `s.startswith(pre)`. -/
def pyStartsWith (s pre : String) : Bool :=
  chStarts s.data pre.data

/-- Accumulate digits of `l` into a number; `none` on empty input or a
non-digit character. -/
def digitsToNat (l : List Char) : Option Nat :=
  match l with
  | [] => none
  | _ =>
    l.foldl
      (fun acc c =>
        match acc with
        | none => none
        | some n => if c.isDigit then some (n * 10 + (c.toNat - 48)) else none)
      (some 0)

/-- Python `int(s)` on a decimal literal with an optional sign.
(Whitespace trimming and `_` digit separators accepted by Python are not
modelled; the validator rejects on parse failure either way.) -/
def pyParseInt (s : String) : Option Int :=
  match s.data with
  | [] => none
  | c :: rest =>
    if c == '-' then (digitsToNat rest).map (fun n => -(n : Int))
    else if c == '+' then (digitsToNat rest).map (fun n => (n : Int))
    else (digitsToNat s.data).map (fun n => (n : Int))

/-! ## config.py -/

/-- `Config.MAX_TOTAL_RECORDS` (config.py line 25); `ProductionConfig`
overrides it to 5000, `TestConfig` to 100.  The validator below takes the
active value as an argument. -/
def Config.MAX_TOTAL_RECORDS : Nat := 10000

/-- `Config.MAX_PAGINATION_PAGES` (config.py line 26).  Note: the records
endpoint does NOT read this constant; it hardcodes `max_pages = 100`
(server.py line 482). -/
def Config.MAX_PAGINATION_PAGES : Nat := 50

/-- `max_pages = 100` (server.py line 482), the hard page-count ceiling of
the pagination loop. -/
def serverMaxPages : Nat := 100

/-! ## validate_airtable_params (server.py lines 363-415) -/

/-- The validated-parameter dict returned by `validate_airtable_params`. -/
structure ValidatedParams where
  base_id : String
  table_id : String
  max_records : Option Nat
  filter_formula : Option String
deriving DecidableEq, Repr

/-- Result of `validate_airtable_params`: either the params dict or the error
strings joined with "; ". -/
inductive ValidationResult where
  | ok (p : ValidatedParams)
  | error (msg : String)
deriving DecidableEq, Repr

/-- `dangerous_patterns` (server.py line 397). -/
def dangerousPatterns : List String :=
  ["javascript:", "eval(", "script>", "DROP TABLE", "DELETE FROM"]

/-- `validate_airtable_params(base_id, table_id, max_records_str, filter_formula)`
(server.py lines 363-415).  `maxTotal` is `AppConfig.MAX_TOTAL_RECORDS`.
Faithful points: errors are collected (not short-circuited) in source order
and joined with "; "; the filter is lowercased but the blocklist patterns are
compared verbatim (`if pattern in filter_lower`, line 400). -/
def validateAirtableParams (baseId tableId maxRecordsStr filterFormula : Option String)
    (maxTotal : Nat) : ValidationResult :=
  let baseErrs :=
    match baseId with
    | none => ["baseId is required"]
    | some b =>
      if b = "" then ["baseId is required"]
      else if !pyStartsWith b "app" || b.length ≠ 17 then
        ["baseId must start with \x27app\x27 and be 17 characters long"]
      else []
  let tableErrs :=
    match tableId with
    | none => ["tableId is required"]
    | some t =>
      if t = "" then ["tableId is required"]
      else if !pyStartsWith t "tbl" || t.length ≠ 17 then
        ["tableId must start with \x27tbl\x27 and be 17 characters long"]
      else []
  let maxRecordsParsed : Option Nat × List String :=
    if pyTruthy maxRecordsStr then
      match pyParseInt (maxRecordsStr.getD "") with
      | none => (none, ["maxRecords must be a valid integer"])
      | some i =>
        if i ≤ 0 then (none, ["maxRecords must be a positive integer"])
        else if i > (maxTotal : Int) then
          (none, ["maxRecords cannot exceed " ++ toString maxTotal ++ " (configured limit)"])
        else (some i.toNat, [])
    else (none, [])
  let filterErrs :=
    if pyTruthy filterFormula then
      let f := filterFormula.getD ""
      let patternErrs := dangerousPatterns.filterMap (fun pat =>
        if strContainsSub (pyLower f) pat then
          some ("Filter formula contains potentially dangerous pattern: " ++ pat)
        else none)
      patternErrs ++ (if f.length > 1000 then ["Filter formula is too long (max 1000 characters)"] else [])
    else []
  let errs := baseErrs ++ tableErrs ++ maxRecordsParsed.2 ++ filterErrs
  if errs.isEmpty then
    .ok { base_id := baseId.getD "", table_id := tableId.getD ""
        , max_records := maxRecordsParsed.1, filter_formula := filterFormula }
  else
    .error (String.intercalate "; " errs)

/-! ## Records and flattening (server.py lines 542-548) -/

/-- One upstream Airtable record as the loop reads it: `record['id']`,
`record['createdTime']`, `record['fields']` (a JSON object; on duplicate
keys Python's json keeps the last occurrence, which the dict-merge below
reproduces). -/
structure RawRecord where
  id : String
  createdTime : String
  fields : List (String × JVal)
deriving DecidableEq, Repr

/-- The flattening `{'id': record['id'], 'createdTime': record['createdTime'],
**record['fields']}` (server.py lines 543-547): Python dict-literal semantics,
so a `'id'` or `'createdTime'` key inside `fields` overwrites the value placed
first (keeping the original key position). -/
def flattenRecord (r : RawRecord) : Dict :=
  r.fields.foldl (fun d kv => alistSet d kv.1 kv.2)
    [("id", JVal.str r.id), ("createdTime", JVal.str r.createdTime)]

/-! ## Deduplication (server.py lines 561-576) -/

/-- The dedup fold: `seen_ids` set, keep a record iff `record.get('id')` was
not seen before (server.py lines 566-572). -/
def dedupGo (seen : List (Option JVal)) : List Dict → List Dict
  | [] => []
  | r :: rest =>
    let rid := alistGet r "id"
    if rid ∈ seen then dedupGo seen rest
    else r :: dedupGo (rid :: seen) rest

/-- `unique_records` built from `all_records` (server.py lines 561-572). -/
def dedupRecords (l : List Dict) : List Dict := dedupGo [] l

/-! ## The pagination loop (server.py lines 478-559) -/

/-- The per-page query parameters the loop builds (`page_params`,
server.py lines 493-517).  The sort directives added from
`AppConfig.get_table_config` (lines 520-523) are forwarded verbatim and
never read back; they are subsumed by the upstream oracle. -/
structure PageRequest where
  offset : Option String
  maxRecords : Option Nat
  filterByFormula : Option String
deriving DecidableEq, Repr

/-- A parsed 2xx upstream JSON body: `data.get('records', [])` and
`data.get('offset')` (server.py lines 538-539, 553). -/
structure PageResponse where
  records : List RawRecord
  offset : Option String
deriving DecidableEq, Repr

/-- A `requests` exception raised while fetching one page (server.py lines
526-534).  `raise_for_status` turns a 4xx/5xx reply into `httpStatus`; all
four kinds are subclasses of `RequestException`.  The string is `str(e)`. -/
inductive FailKind where
  | timeout (msg : String)
  | connectionError (msg : String)
  | httpStatus (code : Nat) (msg : String)
  | otherRequestError (msg : String)
deriving DecidableEq, Repr

/-- `str(e)` of the exception. -/
def FailKind.message : FailKind → String
  | .timeout m => m
  | .connectionError m => m
  | .httpStatus _ m => m
  | .otherRequestError m => m

/-- Outcome of one upstream page fetch. -/
inductive UpstreamOutcome where
  | ok (resp : PageResponse)
  | failure (k : FailKind)
deriving DecidableEq, Repr

/-- The loop state carried across iterations (server.py lines 479-481):
`all_records`, `page_count`, `offset`; `requests` is an instrumentation
counter of upstream fetches actually performed (it increments exactly when
the loop reaches the `requests.get` call). -/
structure LoopState where
  allRecords : List Dict
  pageCount : Nat
  requests : Nat
  offset : Option String
deriving DecidableEq, Repr

/-- `all_records = []; offset = None; page_count = 0` (server.py lines 479-481). -/
def initLoopState : LoopState :=
  { allRecords := [], pageCount := 0, requests := 0, offset := none }

/-- How the pagination loop ends: fall-through to the response building,
or early `return` with a 502 on a page-fetch exception. -/
inductive LoopResult where
  | success (allRecords : List Dict) (pageCount : Nat) (requests : Nat)
  | upstreamError (k : FailKind) (pageCount : Nat) (requests : Nat)
deriving DecidableEq, Repr

/-- Final `page_count` of a run. -/
def LoopResult.pages : LoopResult → Nat
  | .success _ pc _ => pc
  | .upstreamError _ pc _ => pc

/-- Number of upstream fetches a run performed. -/
def LoopResult.reqs : LoopResult → Nat
  | .success _ _ rm => rm
  | .upstreamError _ _ rm => rm

/-- `remaining_records = max_records - len(all_records); if remaining_records <= 0: break`
(server.py lines 507-510), checked only when a cap was requested. -/
def capReached : Option Nat → Nat → Bool
  | none, _ => false
  | some m, len => decide (m ≤ len)

/-- `page_params` for one iteration (server.py lines 493-517): the offset
only if truthy (line 496), `maxRecords = min(100, remaining_records)` only
when a cap was requested (line 512), the filter only if truthy (line 516). -/
def buildPageRequest (maxRecords : Option Nat) (filterFormula : Option String)
    (s : LoopState) : PageRequest :=
  { offset := if pyTruthy s.offset then s.offset else none
  , maxRecords := maxRecords.map (fun m => min 100 (m - s.allRecords.length))
  , filterByFormula := if pyTruthy filterFormula then filterFormula else none }

/-- The `while page_count < max_pages` loop (server.py lines 489-559), as a
fuel recursion: `fuel = max_pages - page_count`, so the loop body runs only
while fuel is positive, exactly the while condition.  Per iteration:
increment `page_count`; break if the cap is met; fetch (an exception
returns a 502 immediately, server.py line 536); append the flattened page
records; continue iff the response carries a truthy `offset`. -/
def paginate (u : Nat → PageRequest → UpstreamOutcome) (maxRecords : Option Nat)
    (filterFormula : Option String) : Nat → LoopState → LoopResult
  | 0, s => .success s.allRecords s.pageCount s.requests
  | fuel + 1, s =>
    if capReached maxRecords s.allRecords.length then
      .success s.allRecords (s.pageCount + 1) s.requests
    else
      match u s.requests (buildPageRequest maxRecords filterFormula s) with
      | .failure k => .upstreamError k (s.pageCount + 1) (s.requests + 1)
      | .ok resp =>
        let newRecords := s.allRecords ++ resp.records.map flattenRecord
        if pyTruthy resp.offset then
          paginate u maxRecords filterFormula fuel
            { allRecords := newRecords, pageCount := s.pageCount + 1
            , requests := s.requests + 1, offset := resp.offset }
        else
          .success newRecords (s.pageCount + 1) (s.requests + 1)

/-! ## Response building (server.py lines 561-588) -/

/-- `pagination_info` of the response envelope (server.py lines 582-587). -/
structure PaginationInfo where
  total_records : Nat
  pages_fetched : Nat
  server_side_pagination : Bool
  duplicates_removed : Nat
deriving DecidableEq, Repr

/-- `response_data` (server.py lines 579-588). -/
structure RecordsResponse where
  records : List Dict
  offset : Option String
  pagination_info : PaginationInfo
deriving DecidableEq, Repr

/-- Dedup then build `response_data` (server.py lines 561-588).  The code
reassigns `all_records = unique_records` only when a duplicate was removed
(line 574-576); when no length changed the original list is kept (it is
equal anyway). -/
def buildResponse (allRecords : List Dict) (pageCount : Nat) : RecordsResponse :=
  let uniqueRecords := dedupRecords allRecords
  let originalCount := allRecords.length
  let finalRecords := if uniqueRecords.length ≠ originalCount then uniqueRecords else allRecords
  { records := finalRecords
  , offset := none
  , pagination_info :=
    { total_records := finalRecords.length
    , pages_fetched := pageCount
    , server_side_pagination := true
    , duplicates_removed := originalCount - finalRecords.length } }

/-! ## SimpleCache (server.py lines 29-106) -/

/-- The two parallel dicts of `SimpleCache`: `_cache` and `_timestamps`,
keyed by the (pre-md5) key string. -/
structure CacheState where
  cache : List (String × RecordsResponse)
  timestamps : List (String × Int)
deriving DecidableEq, Repr

/-- `SimpleCache()` initial state. -/
def emptyCacheState : CacheState := { cache := [], timestamps := [] }

/-- `_generate_key` pre-image `f"{base_id}:{table_id}:{filter_formula or ''}:{max_records}"`
(server.py line 41); the md5 digest of this string is not modelled.
Python renders `None` for an absent cap. -/
def generateKeyData (baseId tableId : String) (filterFormula : Option String)
    (maxRecords : Option Nat) : String :=
  baseId ++ ":" ++ tableId ++ ":"
    ++ (match filterFormula with
        | some f => if f = "" then "" else f
        | none => "")
    ++ ":" ++ (match maxRecords with | some m => toString m | none => "None")

/-- `SimpleCache.get` (server.py lines 44-72): miss on absent key; an entry
whose age strictly exceeds `ttl_seconds` is deleted from both dicts and
treated as absent; otherwise the payload is returned.  `now` is the value
of `time.time()` at the lookup. -/
def cacheGet (st : CacheState) (baseId tableId : String) (filterFormula : Option String)
    (maxRecords : Option Nat) (ttlSeconds : Int) (now : Int) :
    Option RecordsResponse × CacheState :=
  let key := generateKeyData baseId tableId filterFormula maxRecords
  match alistGet st.cache key with
  | none => (none, st)
  | some payload =>
    let cacheTime := (alistGet st.timestamps key).getD 0
    if now - cacheTime > ttlSeconds then
      (none, { cache := alistRemove st.cache key, timestamps := alistRemove st.timestamps key })
    else
      (some payload, st)

/-- `SimpleCache.set` (server.py lines 74-89): always overwrite, stamping
the current time. -/
def cacheSet (st : CacheState) (baseId tableId : String) (data : RecordsResponse)
    (filterFormula : Option String) (maxRecords : Option Nat) (now : Int) : CacheState :=
  let key := generateKeyData baseId tableId filterFormula maxRecords
  { cache := alistSet st.cache key data, timestamps := alistSet st.timestamps key now }

/-! ## The records endpoint (server.py lines 417-599) -/

/-- What `/api/airtable/records` returns: a JSON body (200) or
`jsonify({"error": message}), status`. -/
inductive EndpointResult where
  | okJson (body : RecordsResponse)
  | httpError (status : Nat) (message : String)
deriving DecidableEq, Repr

/-- `get_airtable_records` (server.py lines 417-599): validate → choose the
TTL class (60s with a truthy filter, 300s otherwise, line 446) → cache
lookup (a hit is a nonempty dict, hence truthy) → on miss run the pagination
loop with `max_pages = 100` → on a page failure return 502 without caching →
on success build the response, cache it, return it.  `nowGet`/`nowSet` are
the two `time.time()` readings. -/
def getAirtableRecords (st : CacheState)
    (baseId tableId maxRecordsStr filterFormula : Option String)
    (u : Nat → PageRequest → UpstreamOutcome) (nowGet nowSet : Int)
    (maxTotal : Nat) : EndpointResult × CacheState :=
  match validateAirtableParams baseId tableId maxRecordsStr filterFormula maxTotal with
  | .error msg => (.httpError 400 ("Validation error: " ++ msg), st)
  | .ok p =>
    let cacheTtl : Int := if pyTruthy p.filter_formula then 60 else 300
    match cacheGet st p.base_id p.table_id p.filter_formula p.max_records cacheTtl nowGet with
    | (some cached, st1) => (.okJson cached, st1)
    | (none, st1) =>
      match paginate u p.max_records p.filter_formula serverMaxPages initLoopState with
      | .upstreamError k _ _ =>
        (.httpError 502 ("Data service error: " ++ k.message), st1)
      | .success recs pc _ =>
        let responseData := buildResponse recs pc
        let st2 := cacheSet st1 p.base_id p.table_id responseData p.filter_formula
          p.max_records nowSet
        (.okJson responseData, st2)

/-! ## The chat endpoint error mapping (server.py lines 332-357) -/

/-- Outcome of the single `requests.post` to the language-model API. -/
inductive ChatUpstreamOutcome where
  | timeout
  | connectionError
  | requestError
  | response (status : Nat) (body : String)
deriving DecidableEq, Repr

/-- What `/api/chat` returns for a given upstream outcome. -/
inductive ChatResult where
  | okJson (body : String)
  | httpError (status : Nat) (message : String)
deriving DecidableEq, Repr

/-- The error translation of `/api/chat` (server.py lines 332-357):
`Timeout` → 504, `ConnectionError` → 503, other `RequestException` → 502,
a reply with status ≠ 200 → that status passed through with a message,
a 200 reply → its body relayed. -/
def chatForwardResult (o : ChatUpstreamOutcome) : ChatResult :=
  match o with
  | .timeout => .httpError 504 "Request timed out. Please try again."
  | .connectionError => .httpError 503 "Unable to connect to AI service. Please try again."
  | .requestError => .httpError 502 "AI service request failed. Please try again."
  | .response status body =>
    if status ≠ 200 then
      .httpError status ("Claude API returned status code " ++ toString status)
    else
      .okJson body

/-! ## Helper lemmas: association lists -/

theorem alistGet_alistSet {α : Type} (l : List (String × α)) (k' : String) (v : α)
    (k : String) :
    alistGet (alistSet l k' v) k = if k' = k then some v else alistGet l k := by
  induction l with
  | nil => simp [alistSet, alistGet]
  | cons hd t ih =>
    obtain ⟨a, b⟩ := hd
    by_cases hak : a = k'
    · subst hak
      simp only [alistSet, if_pos rfl]
      by_cases hk : a = k
      · subst hk; simp [alistGet]
      · simp [alistGet, hk]
    · simp only [alistSet, if_neg hak]
      by_cases hk : a = k
      · subst hk
        have hk'a : k' ≠ a := fun h => hak h.symm
        simp [alistGet, if_neg hk'a]
      · simp [alistGet, hk, ih]

theorem alistGet_alistRemove_self {α : Type} (l : List (String × α)) (k : String) :
    alistGet (alistRemove l k) k = none := by
  induction l with
  | nil => simp [alistRemove, alistGet]
  | cons hd t ih =>
    obtain ⟨a, b⟩ := hd
    by_cases hak : a = k
    · simp [alistRemove, hak, ih]
    · simp [alistRemove, alistGet, hak, ih]

/-! ## Helper lemmas: deduplication -/

theorem dedupGo_sublist (l : List Dict) (seen : List (Option JVal)) :
    (dedupGo seen l).Sublist l := by
  induction l generalizing seen with
  | nil => simp [dedupGo]
  | cons r rest ih =>
    simp only [dedupGo]
    by_cases h : alistGet r "id" ∈ seen
    · exact List.Sublist.cons r (by simpa [h] using ih seen)
    · simpa [h] using List.Sublist.cons₂ r (ih _)

/-- Every kept record's identifier was unseen, and the kept record is the
first element of the input carrying that identifier. -/
theorem dedupGo_mem_spec (l : List Dict) (seen : List (Option JVal)) (y : Dict)
    (hy : y ∈ dedupGo seen l) :
    alistGet y "id" ∉ seen ∧
      ∃ l1 l2, l = l1 ++ y :: l2 ∧ ∀ z ∈ l1, alistGet z "id" ≠ alistGet y "id" := by
  induction l generalizing seen with
  | nil => simp [dedupGo] at hy
  | cons r rest ih =>
    simp only [dedupGo] at hy
    by_cases h : alistGet r "id" ∈ seen
    · rw [if_pos h] at hy
      obtain ⟨hns, l1, l2, heq, hfirst⟩ := ih seen hy
      refine ⟨hns, r :: l1, l2, by simp [heq], ?_⟩
      intro z hz
      rcases List.mem_cons.mp hz with hz | hz
      · subst hz
        intro hcontra
        exact hns (hcontra ▸ h)
      · exact hfirst z hz
    · rw [if_neg h] at hy
      rcases List.mem_cons.mp hy with hy | hy
      · subst hy
        exact ⟨h, [], rest, rfl, by simp⟩
      · obtain ⟨hns, l1, l2, heq, hfirst⟩ := ih _ hy
        have hne : alistGet y "id" ≠ alistGet r "id" := by
          intro hcontra
          exact hns (by simp [hcontra])
        have hnseen : alistGet y "id" ∉ seen := fun hc => hns (by simp [hc])
        refine ⟨hnseen, r :: l1, l2, by simp [heq], ?_⟩
        intro z hz
        rcases List.mem_cons.mp hz with hz | hz
        · subst hz; exact fun hc => hne hc.symm
        · exact hfirst z hz

theorem dedupGo_pairwise (l : List Dict) (seen : List (Option JVal)) :
    (dedupGo seen l).Pairwise (fun a b => alistGet a "id" ≠ alistGet b "id") := by
  induction l generalizing seen with
  | nil => simp [dedupGo]
  | cons r rest ih =>
    simp only [dedupGo]
    by_cases h : alistGet r "id" ∈ seen
    · simpa [h] using ih seen
    · rw [if_neg h]
      refine List.Pairwise.cons ?_ (ih _)
      intro y hy
      have := (dedupGo_mem_spec rest _ y hy).1
      intro hcontra
      exact this (by simp [hcontra])

/-- Every input identifier survives: it is either already seen or present on
some kept record. -/
theorem dedupGo_covers (l : List Dict) (seen : List (Option JVal)) (x : Dict)
    (hx : x ∈ l) :
    alistGet x "id" ∈ seen ∨ ∃ y ∈ dedupGo seen l, alistGet y "id" = alistGet x "id" := by
  induction l generalizing seen with
  | nil => simp at hx
  | cons r rest ih =>
    simp only [dedupGo]
    by_cases h : alistGet r "id" ∈ seen
    · rw [if_pos h]
      rcases List.mem_cons.mp hx with hx | hx
      · subst hx; exact Or.inl h
      · exact ih seen hx
    · rw [if_neg h]
      rcases List.mem_cons.mp hx with hx | hx
      · subst hx
        exact Or.inr ⟨x, by simp, rfl⟩
      · rcases ih (alistGet r "id" :: seen) hx with hin | ⟨y, hy, hid⟩
        · rcases List.mem_cons.mp hin with hin | hin
          · exact Or.inr ⟨r, by simp, hin.symm⟩
          · exact Or.inl hin
        · exact Or.inr ⟨y, by simp [hy], hid⟩

theorem dedupRecords_length_le (l : List Dict) :
    (dedupRecords l).length ≤ l.length :=
  (dedupGo_sublist l []).length_le

/-- The response always carries exactly the deduplicated list (when no
duplicate was dropped the original list is kept, but it is then equal to the
deduplicated one). -/
theorem buildResponse_records_eq (l : List Dict) (pc : Nat) :
    (buildResponse l pc).records = dedupRecords l := by
  by_cases h : (dedupRecords l).length ≠ l.length
  · simp [buildResponse, h]
  · push_neg at h
    have : dedupRecords l = l := (dedupGo_sublist l []).eq_of_length h
    simp [buildResponse, h, this]

/-! ## Helper lemmas: the pagination loop -/

/-- The loop body runs at most `fuel` times: final `page_count` and fetch
count each grow by at most `fuel`. -/
theorem paginate_bounds (u : Nat → PageRequest → UpstreamOutcome)
    (maxRecords : Option Nat) (filterFormula : Option String) :
    ∀ (fuel : Nat) (s : LoopState),
      (paginate u maxRecords filterFormula fuel s).pages ≤ s.pageCount + fuel ∧
      (paginate u maxRecords filterFormula fuel s).reqs ≤ s.requests + fuel := by
  intro fuel
  induction fuel with
  | zero => intro s; simp [paginate, LoopResult.pages, LoopResult.reqs]
  | succ n ih =>
    intro s
    simp only [paginate]
    by_cases hcap : capReached maxRecords s.allRecords.length
    · simp only [hcap, if_pos, LoopResult.pages, LoopResult.reqs]
      constructor <;> omega
    · rw [if_neg (by simp [hcap])]
      cases hu : u s.requests (buildPageRequest maxRecords filterFormula s) with
      | failure k =>
        simp only [LoopResult.pages, LoopResult.reqs]
        constructor <;> omega
      | ok resp =>
        by_cases ht : pyTruthy resp.offset
        · simp only [ht, if_pos]
          have := ih { allRecords := s.allRecords ++ resp.records.map flattenRecord
                     , pageCount := s.pageCount + 1, requests := s.requests + 1
                     , offset := resp.offset }
          constructor
          · exact le_trans this.1 (by simp; omega)
          · exact le_trans this.2 (by simp; omega)
        · simp only [ht, if_neg, Bool.false_eq_true, not_false_iff,
            LoopResult.pages, LoopResult.reqs]
          constructor <;> omega

/-- The fetch counter never decreases across a run. -/
theorem paginate_reqs_mono (u : Nat → PageRequest → UpstreamOutcome)
    (maxRecords : Option Nat) (filterFormula : Option String) :
    ∀ (fuel : Nat) (s : LoopState),
      s.requests ≤ (paginate u maxRecords filterFormula fuel s).reqs := by
  intro fuel
  induction fuel with
  | zero => intro s; simp [paginate, LoopResult.reqs]
  | succ n ih =>
    intro s
    simp only [paginate]
    by_cases hcap : capReached maxRecords s.allRecords.length
    · simp [hcap, LoopResult.reqs]
    · rw [if_neg (by simp [hcap])]
      cases hu : u s.requests (buildPageRequest maxRecords filterFormula s) with
      | failure k => simp [LoopResult.reqs]
      | ok resp =>
        by_cases ht : pyTruthy resp.offset
        · simp only [ht, if_pos]
          have := ih { allRecords := s.allRecords ++ resp.records.map flattenRecord
                     , pageCount := s.pageCount + 1, requests := s.requests + 1
                     , offset := resp.offset }
          simp at this
          omega
        · simp [ht, LoopResult.reqs]

/-- A requested cap is respected by the accumulator, provided every upstream
page honors the per-page `maxRecords` the loop asked for. -/
theorem paginate_cap_invariant (u : Nat → PageRequest → UpstreamOutcome)
    (filterFormula : Option String) (m : Nat)
    (hu : ∀ i req resp, u i req = .ok resp → ∀ k, req.maxRecords = some k →
      resp.records.length ≤ k) :
    ∀ (fuel : Nat) (s : LoopState), s.allRecords.length ≤ m →
      ∀ L pc rm, paginate u (some m) filterFormula fuel s = .success L pc rm →
        L.length ≤ m := by
  intro fuel
  induction fuel with
  | zero =>
    intro s hs L pc rm h
    simp only [paginate] at h
    cases h
    exact hs
  | succ n ih =>
    intro s hs L pc rm h
    simp only [paginate] at h
    by_cases hcap : capReached (some m) s.allRecords.length
    · rw [if_pos hcap] at h
      cases h
      exact hs
    · rw [if_neg hcap] at h
      have hlt : s.allRecords.length < m := by
        simp [capReached] at hcap
        omega
      cases hup : u s.requests (buildPageRequest (some m) filterFormula s) with
      | failure k => rw [hup] at h; cases h
      | ok resp =>
        rw [hup] at h
        dsimp only at h
        have hresp : resp.records.length ≤ min 100 (m - s.allRecords.length) :=
          hu s.requests _ resp hup _ (by simp [buildPageRequest])
        have hlen : (s.allRecords ++ resp.records.map flattenRecord).length ≤ m := by
          simp only [List.length_append, List.length_map]
          omega
        by_cases ht : pyTruthy resp.offset
        · rw [if_pos ht] at h
          exact ih _ hlen L pc rm h
        · rw [if_neg ht] at h
          cases h
          exact hlen

/-- With no cap requested, the loop performs exactly one upstream request per
counted page: the cap break (the only path that counts a page without a
fetch) is unreachable. -/
theorem paginate_nocap_pages_eq_reqs (u : Nat → PageRequest → UpstreamOutcome)
    (filterFormula : Option String) :
    ∀ (fuel : Nat) (s : LoopState), s.pageCount = s.requests →
      (paginate u none filterFormula fuel s).pages =
        (paginate u none filterFormula fuel s).reqs := by
  intro fuel
  induction fuel with
  | zero => intro s hs; simp [paginate, LoopResult.pages, LoopResult.reqs, hs]
  | succ n ih =>
    intro s hs
    simp only [paginate]
    rw [if_neg (by simp [capReached])]
    cases hu : u s.requests (buildPageRequest none filterFormula s) with
    | failure k => simp [LoopResult.pages, LoopResult.reqs, hs]
    | ok resp =>
      by_cases ht : pyTruthy resp.offset
      · simp only [ht, if_pos]
        exact ih _ (by simp [hs])
      · simp [ht, LoopResult.pages, LoopResult.reqs, hs]

/-! ## Helper lemmas: flattening -/

/-- Value of the LAST occurrence of key `k` in a key/value list (Python's
json module keeps the last duplicate key; on a well-formed JSON object this
is just the unique occurrence). -/
def lastLookup : List (String × JVal) → String → Option JVal
  | [], _ => none
  | (k', v) :: rest, k =>
    match lastLookup rest k with
    | some v' => some v'
    | none => if k' = k then some v else none

/-- Folding dict assignments over a base dict: the last assignment to a key
wins; keys never assigned keep their base value. -/
theorem alistGet_foldl_set (l : List (String × JVal)) (b : Dict) (k : String) :
    alistGet (l.foldl (fun d kv => alistSet d kv.1 kv.2) b) k =
      match lastLookup l k with
      | some v => some v
      | none => alistGet b k := by
  induction l generalizing b with
  | nil => simp [lastLookup]
  | cons hd t ih =>
    obtain ⟨k', v'⟩ := hd
    simp only [List.foldl_cons, lastLookup]
    rw [ih]
    cases h : lastLookup t k with
    | some v => simp
    | none =>
      simp only
      rw [alistGet_alistSet]
      by_cases hk : k' = k <;> simp [hk]

/-- `record.get('id')` of a flattened record: the last `'id'` entry of
`fields` if any, else the upstream record id. -/
theorem flattenRecord_get_id (r : RawRecord) :
    alistGet (flattenRecord r) "id" =
      match lastLookup r.fields "id" with
      | some v => some v
      | none => some (JVal.str r.id) := by
  rw [flattenRecord, alistGet_foldl_set]
  cases lastLookup r.fields "id" with
  | some v => simp
  | none => simp [alistGet]

/-- `record.get('createdTime')` of a flattened record: the last
`'createdTime'` entry of `fields` if any, else the upstream timestamp. -/
theorem flattenRecord_get_createdTime (r : RawRecord) :
    alistGet (flattenRecord r) "createdTime" =
      match lastLookup r.fields "createdTime" with
      | some v => some v
      | none => some (JVal.str r.createdTime) := by
  rw [flattenRecord, alistGet_foldl_set]
  cases lastLookup r.fields "createdTime" with
  | some v => simp
  | none => simp [alistGet]

/-! ## Claim C1 -/

/-- Claim C1: for every sequence of upstream page responses, the aggregated
response contains no two records with the same identifier, and for each
identifier the record kept is the first one seen in accumulation order
(first-seen order preserved: the output is a sublist of the accumulation,
covers every accumulated identifier, and each kept record is the first
accumulated record bearing its identifier). -/
theorem c1_aggregation_dedup_unique_first_seen
    (u : Nat → PageRequest → UpstreamOutcome) (maxRecords : Option Nat)
    (filterFormula : Option String) (L : List Dict) (pc rm : Nat)
    (hrun : paginate u maxRecords filterFormula serverMaxPages initLoopState
      = .success L pc rm) :
    (buildResponse L pc).records.Pairwise
        (fun a b => alistGet a "id" ≠ alistGet b "id") ∧
    (buildResponse L pc).records.Sublist L ∧
    (∀ x ∈ L, ∃ y ∈ (buildResponse L pc).records,
      alistGet y "id" = alistGet x "id") ∧
    (∀ y ∈ (buildResponse L pc).records,
      ∃ l1 l2, L = l1 ++ y :: l2 ∧ ∀ z ∈ l1, alistGet z "id" ≠ alistGet y "id") := by
  rw [buildResponse_records_eq]
  refine ⟨dedupGo_pairwise L [], dedupGo_sublist L [], ?_, ?_⟩
  · intro x hx
    rcases dedupGo_covers L [] x hx with hin | h2
    · simp at hin
    · exact h2
  · intro y hy
    exact (dedupGo_mem_spec L [] y hy).2

/-- Upstream for the C1 witness: the record `recA` appears on both pages. -/
def c1WitnessUpstream : Nat → PageRequest → UpstreamOutcome := fun i _ =>
  if i = 0 then
    .ok ⟨[⟨"recA", "t1", []⟩, ⟨"recB", "t2", []⟩], some "cursor1"⟩
  else
    .ok ⟨[⟨"recA", "t1", []⟩], none⟩

/-- Witness for C1 at a concrete duplicated-record run. -/
theorem c1_aggregation_dedup_unique_first_seen_witness :
    (paginate c1WitnessUpstream none none serverMaxPages initLoopState
      = .success [flattenRecord ⟨"recA", "t1", []⟩, flattenRecord ⟨"recB", "t2", []⟩,
          flattenRecord ⟨"recA", "t1", []⟩] 2 2) ∧
    (buildResponse [flattenRecord ⟨"recA", "t1", []⟩, flattenRecord ⟨"recB", "t2", []⟩,
        flattenRecord ⟨"recA", "t1", []⟩] 2).records.Pairwise
      (fun a b => alistGet a "id" ≠ alistGet b "id") :=
  ⟨by decide,
    (c1_aggregation_dedup_unique_first_seen c1WitnessUpstream none none _ 2 2 (by decide)).1⟩

/-! ## Claim C2 -/

/-- Upstream for the C2 counterexample: a page carrying MORE records than the
per-page `maxRecords` the loop asked for (the loop asked for at most 1). -/
def c2BadUpstream : Nat → PageRequest → UpstreamOutcome := fun _ _ =>
  .ok ⟨[⟨"rec1", "t", []⟩, ⟨"rec2", "t", []⟩], none⟩

/-- Counterexample to Claim C2 as stated: with a validated cap of 1 and an
upstream page response carrying 2 records, the endpoint returns 2 records —
the code never truncates the accumulator, it only sizes the per-page request,
so an upstream that ignores the requested page size breaks the cap. -/
theorem c2_counterexample :
    validateAirtableParams (some "app12345678901234") (some "tbl12345678901234")
        (some "1") none Config.MAX_TOTAL_RECORDS
      = .ok ⟨"app12345678901234", "tbl12345678901234", some 1, none⟩ ∧
    (getAirtableRecords emptyCacheState (some "app12345678901234")
        (some "tbl12345678901234") (some "1") none c2BadUpstream 0 0
        Config.MAX_TOTAL_RECORDS).1
      = .okJson (buildResponse
          [flattenRecord ⟨"rec1", "t", []⟩, flattenRecord ⟨"rec2", "t", []⟩] 1) ∧
    (buildResponse [flattenRecord ⟨"rec1", "t", []⟩, flattenRecord ⟨"rec2", "t", []⟩]
        1).records.length = 2 := by
  decide

/-- Claim C2 amended: if a record cap was given and validated, and every
upstream page response contains at most the number of records the loop
requested for that page, then the aggregated response never exceeds the cap. -/
theorem c2_cap_respected_for_honoring_upstream
    (baseId tableId maxRecordsStr filterFormula : Option String) (maxTotal : Nat)
    (p : ValidatedParams) (m : Nat)
    (hval : validateAirtableParams baseId tableId maxRecordsStr filterFormula maxTotal
      = .ok p)
    (hm : p.max_records = some m)
    (u : Nat → PageRequest → UpstreamOutcome)
    (hu : ∀ i req resp, u i req = .ok resp → ∀ k, req.maxRecords = some k →
      resp.records.length ≤ k)
    (L : List Dict) (pc rm : Nat)
    (hrun : paginate u p.max_records p.filter_formula serverMaxPages initLoopState
      = .success L pc rm) :
    (buildResponse L pc).records.length ≤ m := by
  rw [buildResponse_records_eq]
  rw [hm] at hrun
  exact le_trans (dedupRecords_length_le L)
    (paginate_cap_invariant u p.filter_formula m hu serverMaxPages initLoopState
      (by simp [initLoopState]) L pc rm hrun)

/-- Upstream for the C2 witness: every page is empty, so it trivially honors
any requested page size. -/
def c2HonestUpstream : Nat → PageRequest → UpstreamOutcome := fun _ _ =>
  .ok ⟨[], none⟩

/-- Witness for the amended C2 at a concrete honoring run with cap 1. -/
theorem c2_cap_respected_for_honoring_upstream_witness :
    validateAirtableParams (some "app12345678901234") (some "tbl12345678901234")
        (some "1") none Config.MAX_TOTAL_RECORDS
      = .ok ⟨"app12345678901234", "tbl12345678901234", some 1, none⟩ ∧
    (buildResponse ([] : List Dict) 1).records.length ≤ 1 :=
  ⟨by decide,
    c2_cap_respected_for_honoring_upstream (some "app12345678901234")
      (some "tbl12345678901234") (some "1") none Config.MAX_TOTAL_RECORDS
      ⟨"app12345678901234", "tbl12345678901234", some 1, none⟩ 1 (by decide) rfl
      c2HonestUpstream
      (by
        intro i req resp h k hk
        simp only [c2HonestUpstream] at h
        cases h
        simp)
      [] 1 1 (by decide)⟩

/-! ## Claim C3 -/

/-- An upstream that always reports another page available. -/
def alwaysMoreUpstream : Nat → PageRequest → UpstreamOutcome := fun _ _ =>
  .ok ⟨[], some "more"⟩

/-- Claim C3: for every upstream behavior and every requested cap/filter, the
pagination loop performs at most `max_pages = 100` iterations (counting both
pages and upstream fetches) and then stops — the loop is a total function of
its fuel, so aggregation always terminates; and an upstream that always
supplies a cursor is cut off at exactly the ceiling.  (The handler hardcodes
`max_pages = 100`; the `Config.MAX_PAGINATION_PAGES = 50` constant is unused
by this endpoint.) -/
theorem c3_page_count_ceiling
    (u : Nat → PageRequest → UpstreamOutcome) (maxRecords : Option Nat)
    (filterFormula : Option String) :
    (paginate u maxRecords filterFormula serverMaxPages initLoopState).pages ≤ 100 ∧
    (paginate u maxRecords filterFormula serverMaxPages initLoopState).reqs ≤ 100 ∧
    (paginate alwaysMoreUpstream none none serverMaxPages initLoopState).pages = 100 := by
  have h := paginate_bounds u maxRecords filterFormula serverMaxPages initLoopState
  simp only [initLoopState] at h
  exact ⟨by simpa [serverMaxPages] using h.1, by simpa [serverMaxPages] using h.2, by decide⟩

/-! ## Claim C4 -/

/-- Claim C4 is a code bug: `validate_airtable_params` lowercases the filter
(`filter_lower = filter_formula.lower()`) but compares the blocklist patterns
verbatim, so the uppercase patterns `'DROP TABLE'` and `'DELETE FROM'` can
never match — NO letter-case variant of "DROP TABLE" is rejected.  This
theorem evaluates the validator at the failing inputs: every case variant of
"DROP TABLE" passes validation, while a lowercase-listed pattern like
`javascript:` is (correctly) caught case-insensitively, showing the
lowercasing was intended to make the whole blocklist case-insensitive. -/
theorem c4_drop_table_never_rejected :
    validateAirtableParams (some "app12345678901234") (some "tbl12345678901234")
        none (some "DROP TABLE") Config.MAX_TOTAL_RECORDS
      = .ok ⟨"app12345678901234", "tbl12345678901234", none, some "DROP TABLE"⟩ ∧
    validateAirtableParams (some "app12345678901234") (some "tbl12345678901234")
        none (some "drop table") Config.MAX_TOTAL_RECORDS
      = .ok ⟨"app12345678901234", "tbl12345678901234", none, some "drop table"⟩ ∧
    validateAirtableParams (some "app12345678901234") (some "tbl12345678901234")
        none (some "DrOp TaBlE students") Config.MAX_TOTAL_RECORDS
      = .ok ⟨"app12345678901234", "tbl12345678901234", none, some "DrOp TaBlE students"⟩ ∧
    validateAirtableParams (some "app12345678901234") (some "tbl12345678901234")
        none (some "JAVASCRIPT:alert") Config.MAX_TOTAL_RECORDS
      = .error "Filter formula contains potentially dangerous pattern: javascript:" := by
  decide

/-! ## Claim C5 -/

/-- Payload for the C5 counterexample. -/
def c5Payload : RecordsResponse :=
  { records := [], offset := none
  , pagination_info :=
    { total_records := 0, pages_fetched := 0
    , server_side_pagination := true, duplicates_removed := 0 } }

/-- Counterexample to Claim C5 as stated: an entry inserted at T = 0 with
ttl = 300 is STILL RETURNED by a lookup at exactly T + ttl = 300 — the code
expires only when `now - cache_time > ttl_seconds` (strictly), so "at or
after T+ttl returns absent" fails at the boundary. -/
theorem c5_counterexample :
    (cacheGet
        (cacheSet emptyCacheState "app12345678901234" "tbl12345678901234"
          c5Payload none none 0)
        "app12345678901234" "tbl12345678901234" none none 300 300).1
      = some c5Payload := by
  decide

/-- Claim C5 amended: a `get` of the same parameters at any time with
`t - T ≤ ttl` (so strictly before AND exactly at `T + ttl`) returns the
stored payload and leaves the cache unchanged; a `get` strictly after
`T + ttl` returns absent and deletes the entry from both internal dicts as a
side effect of the lookup. -/
theorem c5_ttl_boundary
    (st : CacheState) (baseId tableId : String) (ff : Option String)
    (mr : Option Nat) (payload : RecordsResponse) (T ttl t1 t2 : Int)
    (h1 : t1 - T ≤ ttl) (h2 : t2 - T > ttl) :
    cacheGet (cacheSet st baseId tableId payload ff mr T) baseId tableId ff mr ttl t1
      = (some payload, cacheSet st baseId tableId payload ff mr T) ∧
    (cacheGet (cacheSet st baseId tableId payload ff mr T) baseId tableId ff mr ttl t2).1
      = none ∧
    alistGet ((cacheGet (cacheSet st baseId tableId payload ff mr T) baseId tableId ff
        mr ttl t2).2).cache (generateKeyData baseId tableId ff mr) = none ∧
    alistGet ((cacheGet (cacheSet st baseId tableId payload ff mr T) baseId tableId ff
        mr ttl t2).2).timestamps (generateKeyData baseId tableId ff mr) = none := by
  have hc : alistGet (cacheSet st baseId tableId payload ff mr T).cache
      (generateKeyData baseId tableId ff mr) = some payload := by
    simp [cacheSet, alistGet_alistSet]
  have htm : alistGet (cacheSet st baseId tableId payload ff mr T).timestamps
      (generateKeyData baseId tableId ff mr) = some T := by
    simp [cacheSet, alistGet_alistSet]
  refine ⟨?_, ?_, ?_, ?_⟩
  · simp only [cacheGet, hc, htm, Option.getD_some]
    rw [if_neg (by omega : ¬(t1 - T > ttl))]
  · simp only [cacheGet, hc, htm, Option.getD_some]
    rw [if_pos (by omega : t2 - T > ttl)]
  · simp only [cacheGet, hc, htm, Option.getD_some]
    rw [if_pos (by omega : t2 - T > ttl)]
    exact alistGet_alistRemove_self _ _
  · simp only [cacheGet, hc, htm, Option.getD_some]
    rw [if_pos (by omega : t2 - T > ttl)]
    exact alistGet_alistRemove_self _ _

/-- Witness payload for the amended C5. -/
def c5WitnessPayload : RecordsResponse :=
  { records := [[("id", JVal.str "w5"), ("createdTime", JVal.str "t")]], offset := none
  , pagination_info :=
    { total_records := 1, pages_fetched := 1
    , server_side_pagination := true, duplicates_removed := 0 } }

/-- Witness for the amended C5: insert at T = 0 with ttl = 300, fresh lookup
at t1 = 300, expired lookup at t2 = 301. -/
theorem c5_ttl_boundary_witness :
    ((0 : Int) + 300 - 0 ≤ 300 ∧ (0 : Int) + 301 - 0 > 300) ∧
    (cacheGet (cacheSet emptyCacheState "appWitness0000005" "tblWitness0000005"
        c5WitnessPayload none none 0) "appWitness0000005" "tblWitness0000005"
        none none 300 (0 + 300)).1 = some c5WitnessPayload ∧
    (cacheGet (cacheSet emptyCacheState "appWitness0000005" "tblWitness0000005"
        c5WitnessPayload none none 0) "appWitness0000005" "tblWitness0000005"
        none none 300 (0 + 301)).1 = none :=
  ⟨⟨by decide, by decide⟩,
    congrArg Prod.fst
      (c5_ttl_boundary emptyCacheState "appWitness0000005" "tblWitness0000005" none none
        c5WitnessPayload 0 300 (0 + 300) (0 + 301) (by decide) (by decide)).1,
    (c5_ttl_boundary emptyCacheState "appWitness0000005" "tblWitness0000005" none none
      c5WitnessPayload 0 300 (0 + 300) (0 + 301) (by decide) (by decide)).2.1⟩

/-! ## Claim C6 -/

/-- Stale payload sitting in the cache before the C6 counterexample request. -/
def c6StalePayload : RecordsResponse :=
  { records := [[("id", JVal.str "stale"), ("createdTime", JVal.str "t")]], offset := none
  , pagination_info :=
    { total_records := 1, pages_fetched := 1
    , server_side_pagination := true, duplicates_removed := 0 } }

/-- Pre-request cache state for the C6 counterexample: one entry for the same
parameters, inserted at time 0. -/
def c6StaleState : CacheState :=
  { cache := [(generateKeyData "app12345678901234" "tbl12345678901234" none none,
        c6StalePayload)]
  , timestamps := [(generateKeyData "app12345678901234" "tbl12345678901234" none none, 0)] }

/-- Upstream for the C6 counterexample: the very first page fetch fails. -/
def c6FailUpstream : Nat → PageRequest → UpstreamOutcome := fun _ _ =>
  .failure (.connectionError "Connection refused")

/-- Counterexample to the parenthetical of Claim C6 ("the cache is unchanged
on error"): with an expired entry for the same parameters in the cache, the
lookup purges it before the upstream ever fails, so the request errors AND
the final cache differs from the pre-request cache. -/
theorem c6_counterexample :
    getAirtableRecords c6StaleState (some "app12345678901234")
        (some "tbl12345678901234") none none c6FailUpstream 1000 1000
        Config.MAX_TOTAL_RECORDS
      = (.httpError 502 "Data service error: Connection refused", emptyCacheState) ∧
    c6StaleState ≠ emptyCacheState := by
  decide

/-- Claim C6 amended: if any upstream page request fails, the endpoint
returns a 502 error response (the error body carries no records — records
accumulated from earlier pages are discarded), and nothing is stored in the
cache: the final cache state is exactly the state after the cache lookup,
which differs from the pre-request state at most by the lookup's purge of an
expired entry for that same key. -/
theorem c6_upstream_error_discards_and_stores_nothing
    (st : CacheState) (baseId tableId maxRecordsStr filterFormula : Option String)
    (u : Nat → PageRequest → UpstreamOutcome) (nowGet nowSet : Int) (maxTotal : Nat)
    (p : ValidatedParams) (st1 : CacheState) (k : FailKind) (pc rm : Nat)
    (hval : validateAirtableParams baseId tableId maxRecordsStr filterFormula maxTotal
      = .ok p)
    (hmiss : cacheGet st p.base_id p.table_id p.filter_formula p.max_records
        (if pyTruthy p.filter_formula then 60 else 300) nowGet = (none, st1))
    (hrun : paginate u p.max_records p.filter_formula serverMaxPages initLoopState
      = .upstreamError k pc rm) :
    getAirtableRecords st baseId tableId maxRecordsStr filterFormula u nowGet nowSet
        maxTotal
      = (.httpError 502 ("Data service error: " ++ k.message), st1) := by
  simp only [getAirtableRecords, hval, hmiss, hrun]

/-- Upstream for the C6 witness: page 1 succeeds with a record, page 2 times
out. -/
def c6WitnessUpstream : Nat → PageRequest → UpstreamOutcome := fun i _ =>
  if i = 0 then .ok ⟨[⟨"recW6", "t", []⟩], some "cursorW6"⟩
  else .failure (.timeout "Read timed out")

/-- Witness for the amended C6: a concrete aggregation whose second page
times out returns 502 and leaves the (empty) cache empty, discarding the
record fetched on page 1. -/
theorem c6_upstream_error_discards_and_stores_nothing_witness :
    (paginate c6WitnessUpstream none none serverMaxPages initLoopState
      = .upstreamError (.timeout "Read timed out") 2 2) ∧
    getAirtableRecords emptyCacheState (some "app12345678901234")
        (some "tbl12345678901234") none none c6WitnessUpstream 0 0
        Config.MAX_TOTAL_RECORDS
      = (.httpError 502 ("Data service error: "
          ++ FailKind.message (.timeout "Read timed out")), emptyCacheState) :=
  ⟨by decide,
    c6_upstream_error_discards_and_stores_nothing emptyCacheState
      (some "app12345678901234") (some "tbl12345678901234") none none
      c6WitnessUpstream 0 0 Config.MAX_TOTAL_RECORDS
      ⟨"app12345678901234", "tbl12345678901234", none, none⟩ emptyCacheState
      (.timeout "Read timed out") 2 2 (by decide) (by decide) (by decide)⟩

/-! ## Claim C7 -/

/-- Upstream for the C7 counterexample: always one record plus a cursor. -/
def c7CapUpstream : Nat → PageRequest → UpstreamOutcome := fun _ _ =>
  .ok ⟨[⟨"recX", "t", []⟩], some "cursor"⟩

/-- Counterexample to Claim C7 as stated: with a validated cap of 1 met after
page 1, the loop starts a second iteration, increments `page_count` to 2 and
only then breaks on the cap — so the response reports `pages_fetched = 2`
although exactly 1 upstream request was performed. -/
theorem c7_counterexample :
    validateAirtableParams (some "app12345678901234") (some "tbl12345678901234")
        (some "1") none Config.MAX_TOTAL_RECORDS
      = .ok ⟨"app12345678901234", "tbl12345678901234", some 1, none⟩ ∧
    paginate c7CapUpstream (some 1) none serverMaxPages initLoopState
      = .success [flattenRecord ⟨"recX", "t", []⟩] 2 1 ∧
    (buildResponse [flattenRecord ⟨"recX", "t", []⟩] 2).pagination_info.pages_fetched
      = 2 := by
  decide

/-- Deduplicating a list whose identifiers are already distinct (and disjoint
from `seen`) keeps it unchanged. -/
theorem dedupGo_eq_self (l : List Dict) :
    ∀ (seen : List (Option JVal)),
      (l.map (fun d => alistGet d "id")).Nodup →
      (∀ x ∈ l, alistGet x "id" ∉ seen) →
      dedupGo seen l = l := by
  induction l with
  | nil => intro seen _ _; rfl
  | cons r t ih =>
    intro seen hnodup hseen
    simp only [List.map_cons, List.nodup_cons] at hnodup
    simp only [dedupGo]
    rw [if_neg (hseen r (by simp))]
    congr 1
    apply ih _ hnodup.2
    intro x hx hmem
    rcases List.mem_cons.mp hmem with h | h
    · exact hnodup.1 (h ▸ List.mem_map_of_mem (fun d => alistGet d "id") hx)
    · exact hseen x (by simp [hx]) h

/-- Deduplication is the identity on a list of records with distinct ids. -/
theorem dedupRecords_eq_self (l : List Dict)
    (h : (l.map (fun d => alistGet d "id")).Nodup) : dedupRecords l = l :=
  dedupGo_eq_self l [] h (by simp)

/-- One successful loop iteration that continues (truthy cursor). -/
theorem paginate_step_continue (u : Nat → PageRequest → UpstreamOutcome)
    (mr : Option Nat) (f : Option String) (fuel : Nat) (s : LoopState)
    (resp : PageResponse)
    (hcap : capReached mr s.allRecords.length = false)
    (hu : u s.requests (buildPageRequest mr f s) = .ok resp)
    (ht : pyTruthy resp.offset = true) :
    paginate u mr f (fuel + 1) s
      = paginate u mr f fuel
          { allRecords := s.allRecords ++ resp.records.map flattenRecord
          , pageCount := s.pageCount + 1, requests := s.requests + 1
          , offset := resp.offset } := by
  simp only [paginate, hcap, hu, ht, Bool.false_eq_true, if_false, if_true]

/-- One successful loop iteration that ends pagination (no truthy cursor). -/
theorem paginate_step_stop (u : Nat → PageRequest → UpstreamOutcome)
    (mr : Option Nat) (f : Option String) (fuel : Nat) (s : LoopState)
    (resp : PageResponse)
    (hcap : capReached mr s.allRecords.length = false)
    (hu : u s.requests (buildPageRequest mr f s) = .ok resp)
    (ht : pyTruthy resp.offset = false) :
    paginate u mr f (fuel + 1) s
      = .success (s.allRecords ++ resp.records.map flattenRecord)
          (s.pageCount + 1) (s.requests + 1) := by
  simp only [paginate, hcap, hu, ht, Bool.false_eq_true, if_false, if_true]

/-- Identifier of record `i` of the C7 scenario: `i` copies of `r`, so that
distinctness of identifiers is provable by injectivity. -/
def c7IdString (i : Nat) : String := ⟨List.replicate i 'r'⟩

/-- Record `i` of the C7 scenario (distinct identifiers, empty fields). -/
def c7MkRecord (i : Nat) : RawRecord :=
  ⟨c7IdString i, "2024-01-01T00:00:00.000Z", []⟩

/-- Page 1 of the C7 scenario: 100 distinct records. -/
def c7Page1 : List RawRecord := (List.range 100).map c7MkRecord

/-- Page 2 of the C7 scenario: 100 more distinct records. -/
def c7Page2 : List RawRecord := (List.range 100).map (fun j => c7MkRecord (100 + j))

/-- Page 3 of the C7 scenario: 42 more distinct records, no cursor. -/
def c7Page3 : List RawRecord := (List.range 42).map (fun j => c7MkRecord (200 + j))

/-- The record indices of the three scenario pages, in accumulation order. -/
def c7Indices : List Nat :=
  List.range 100 ++ (List.range 100).map (fun j => 100 + j)
    ++ (List.range 42).map (fun j => 200 + j)

/-- The 3-page 100/100/42 upstream of the spec scenario. -/
def c7ScenarioUpstream : Nat → PageRequest → UpstreamOutcome := fun i _ =>
  match i with
  | 0 => .ok ⟨c7Page1, some "offsetPage2"⟩
  | 1 => .ok ⟨c7Page2, some "offsetPage3"⟩
  | _ => .ok ⟨c7Page3, none⟩

/-- The accumulated flattened records of the C7 scenario. -/
def c7ScenarioAccum : List Dict := (c7Page1 ++ c7Page2 ++ c7Page3).map flattenRecord

set_option maxRecDepth 20000 in
/-- The scenario indices are `0, ..., 241` in order. -/
theorem c7Indices_eq_range : c7Indices = List.range 242 := by decide

/-- The flattened identifiers of the scenario accumulation, by index. -/
theorem c7_accum_ids :
    c7ScenarioAccum.map (fun d => alistGet d "id")
      = c7Indices.map (fun i => some (JVal.str (c7IdString i))) := by
  simp only [c7ScenarioAccum, c7Indices, c7Page1, c7Page2, c7Page3,
    List.map_append, List.map_map]
  rfl

/-- The scenario identifiers are pairwise distinct. -/
theorem c7_accum_nodup :
    (c7ScenarioAccum.map (fun d => alistGet d "id")).Nodup := by
  rw [c7_accum_ids]
  refine List.Nodup.map ?_ (c7Indices_eq_range ▸ List.nodup_range 242)
  intro a b h
  simp only [Option.some.injEq, JVal.str.injEq] at h
  have hdata := congrArg String.data h
  simp only [c7IdString] at hdata
  exact List.replicate_left_injective 'r' hdata

/-- The scenario accumulation has 242 records. -/
theorem c7_accum_length : c7ScenarioAccum.length = 242 := by
  simp [c7ScenarioAccum, c7Page1, c7Page2, c7Page3]

/-- The scenario run: 3 pages fetched, 3 requests, 242 accumulated records. -/
theorem c7_scenario_paginate :
    paginate c7ScenarioUpstream none none serverMaxPages initLoopState
      = .success c7ScenarioAccum 3 3 := by
  have h1 : paginate c7ScenarioUpstream none none (99 + 1) initLoopState
      = paginate c7ScenarioUpstream none none 99
          { allRecords := c7Page1.map flattenRecord, pageCount := 1
          , requests := 1, offset := some "offsetPage2" } :=
    paginate_step_continue c7ScenarioUpstream none none 99 initLoopState
      ⟨c7Page1, some "offsetPage2"⟩ rfl rfl (by decide)
  have h2 : paginate c7ScenarioUpstream none none (98 + 1)
        { allRecords := c7Page1.map flattenRecord, pageCount := 1
        , requests := 1, offset := some "offsetPage2" }
      = paginate c7ScenarioUpstream none none 98
          { allRecords := c7Page1.map flattenRecord ++ c7Page2.map flattenRecord
          , pageCount := 2, requests := 2, offset := some "offsetPage3" } :=
    paginate_step_continue c7ScenarioUpstream none none 98 _
      ⟨c7Page2, some "offsetPage3"⟩ rfl rfl (by decide)
  have h3 : paginate c7ScenarioUpstream none none (97 + 1)
        { allRecords := c7Page1.map flattenRecord ++ c7Page2.map flattenRecord
        , pageCount := 2, requests := 2, offset := some "offsetPage3" }
      = .success ((c7Page1.map flattenRecord ++ c7Page2.map flattenRecord)
          ++ c7Page3.map flattenRecord) 3 3 :=
    paginate_step_stop c7ScenarioUpstream none none 97 _ ⟨c7Page3, none⟩ rfl rfl rfl
  show paginate c7ScenarioUpstream none none (99 + 1) initLoopState
      = .success c7ScenarioAccum 3 3
  rw [h1]
  rw [show (99 : Nat) = 98 + 1 from rfl, h2]
  rw [show (98 : Nat) = 97 + 1 from rfl, h3]
  simp [c7ScenarioAccum, List.map_append]

/-- Claim C7 amended: `total_records` is the number of records returned and
`duplicates_removed` is the number dropped by deduplication, as claimed; but
`pages_fetched` is the number of loop iterations STARTED, which equals the
number of upstream requests performed whenever no record cap was given (and
can exceed it by one when a cap is met at an iteration start, per the
counterexample).  The spec scenario holds: `maxRecords` unset with a 3-page
100/100/42 distinct upstream yields `total_records = 242`,
`pages_fetched = 3`, `duplicates_removed = 0`. -/
theorem c7_pagination_info_reporting
    (u : Nat → PageRequest → UpstreamOutcome) (filterFormula : Option String)
    (L : List Dict) (pc rm : Nat)
    (hrun : paginate u none filterFormula serverMaxPages initLoopState
      = .success L pc rm) :
    pc = rm ∧
    (∀ (L' : List Dict) (pc' : Nat),
      (buildResponse L' pc').pagination_info.total_records
          = (buildResponse L' pc').records.length ∧
      (buildResponse L' pc').pagination_info.pages_fetched = pc' ∧
      (buildResponse L' pc').pagination_info.duplicates_removed
          = L'.length - (buildResponse L' pc').records.length) ∧
    (getAirtableRecords emptyCacheState (some "app12345678901234")
        (some "tbl12345678901234") none none c7ScenarioUpstream 0 0
        Config.MAX_TOTAL_RECORDS).1
      = .okJson (buildResponse c7ScenarioAccum 3) ∧
    (buildResponse c7ScenarioAccum 3).pagination_info
      = ⟨242, 3, true, 0⟩ := by
  have hval : validateAirtableParams (some "app12345678901234")
      (some "tbl12345678901234") none none Config.MAX_TOTAL_RECORDS
      = .ok ⟨"app12345678901234", "tbl12345678901234", none, none⟩ := by decide
  have hmiss : cacheGet emptyCacheState "app12345678901234" "tbl12345678901234"
      none none 300 0 = (none, emptyCacheState) := rfl
  have hded : dedupRecords c7ScenarioAccum = c7ScenarioAccum :=
    dedupRecords_eq_self _ c7_accum_nodup
  refine ⟨?_, fun L' pc' => ⟨rfl, rfl, rfl⟩, ?_, ?_⟩
  · have h := paginate_nocap_pages_eq_reqs u filterFormula serverMaxPages
      initLoopState rfl
    rw [hrun] at h
    exact h
  · simp only [getAirtableRecords, hval, pyTruthy, if_false, Bool.false_eq_true,
      hmiss, c7_scenario_paginate]
  · simp only [buildResponse, hded, ne_eq, not_true_eq_false, if_false,
      c7_accum_length, Nat.sub_self]

/-- Upstream for the C7 witness: one page, one record, no cursor, no cap. -/
def c7WitnessUpstream : Nat → PageRequest → UpstreamOutcome := fun _ _ =>
  .ok ⟨[⟨"recW7", "t", []⟩], none⟩

/-- Witness for the amended C7 at a concrete uncapped run. -/
theorem c7_pagination_info_reporting_witness :
    (paginate c7WitnessUpstream none none serverMaxPages initLoopState
      = .success [flattenRecord ⟨"recW7", "t", []⟩] 1 1) ∧
    (1 : Nat) = 1 :=
  ⟨by decide,
    (c7_pagination_info_reporting c7WitnessUpstream none
      [flattenRecord ⟨"recW7", "t", []⟩] 1 1 (by decide)).1⟩

/-! ## Claim C8 -/

/-- Upstream for the C8 counterexample: unreachable (connection error). -/
def c8ConnUpstream : Nat → PageRequest → UpstreamOutcome := fun _ _ =>
  .failure (.connectionError "Failed to establish a new connection")

/-- Counterexample to Claim C8 as stated: an UNREACHABLE upstream during a
records-endpoint page fetch yields 502, not the claimed 503 — the records
endpoint catches every `RequestException` (timeout, connection error, and
the `HTTPError` that `raise_for_status` turns a non-2xx reply into) in a
single handler returning 502. -/
theorem c8_counterexample :
    (getAirtableRecords emptyCacheState (some "app12345678901234")
        (some "tbl12345678901234") none none c8ConnUpstream 0 0
        Config.MAX_TOTAL_RECORDS).1
      = .httpError 502 "Data service error: Failed to establish a new connection" ∧
    (502 : Nat) ≠ 503 := by
  decide

/-- Claim C8 amended: the 504/503/passthrough taxonomy is the CHAT endpoint's
(timeout → 504, unreachable → 503, other request failure → 502, non-200
reply → that status passed through with a message); the records endpoint
instead maps EVERY upstream page failure — timeout, unreachable, or an
error status raised by `raise_for_status` — to a single 502 response. -/
theorem c8_upstream_error_status_mapping
    (s : Nat) (body : String) (hs : s ≠ 200)
    (st : CacheState) (baseId tableId maxRecordsStr filterFormula : Option String)
    (u : Nat → PageRequest → UpstreamOutcome) (nowGet nowSet : Int) (maxTotal : Nat)
    (p : ValidatedParams) (st1 : CacheState) (k : FailKind) (pc rm : Nat)
    (hval : validateAirtableParams baseId tableId maxRecordsStr filterFormula maxTotal
      = .ok p)
    (hmiss : cacheGet st p.base_id p.table_id p.filter_formula p.max_records
        (if pyTruthy p.filter_formula then 60 else 300) nowGet = (none, st1))
    (hrun : paginate u p.max_records p.filter_formula serverMaxPages initLoopState
      = .upstreamError k pc rm) :
    chatForwardResult .timeout
        = .httpError 504 "Request timed out. Please try again." ∧
    chatForwardResult .connectionError
        = .httpError 503 "Unable to connect to AI service. Please try again." ∧
    chatForwardResult .requestError
        = .httpError 502 "AI service request failed. Please try again." ∧
    chatForwardResult (.response s body)
        = .httpError s ("Claude API returned status code " ++ toString s) ∧
    (getAirtableRecords st baseId tableId maxRecordsStr filterFormula u nowGet nowSet
        maxTotal).1
      = .httpError 502 ("Data service error: " ++ k.message) := by
  refine ⟨rfl, rfl, rfl, by simp [chatForwardResult, hs], ?_⟩
  simp only [getAirtableRecords, hval, hmiss, hrun]

/-- Upstream for the C8 witness: the first records page fetch times out. -/
def c8WitnessUpstream : Nat → PageRequest → UpstreamOutcome := fun _ _ =>
  .failure (.timeout "HTTPSConnectionPool: read timed out")

/-- Witness for the amended C8: chat passthrough at a concrete 418 reply, and
the records endpoint answering 502 to a concrete timeout. -/
theorem c8_upstream_error_status_mapping_witness :
    ((418 : Nat) ≠ 200) ∧
    chatForwardResult (.response 418 "teapot")
        = .httpError 418 ("Claude API returned status code " ++ toString (418 : Nat)) ∧
    (getAirtableRecords emptyCacheState (some "app12345678901234")
        (some "tbl12345678901234") none none c8WitnessUpstream 5 5
        Config.MAX_TOTAL_RECORDS).1
      = .httpError 502 ("Data service error: "
          ++ FailKind.message (.timeout "HTTPSConnectionPool: read timed out")) :=
  ⟨by decide,
    (c8_upstream_error_status_mapping 418 "teapot" (by decide) emptyCacheState
      (some "app12345678901234") (some "tbl12345678901234") none none
      c8WitnessUpstream 5 5 Config.MAX_TOTAL_RECORDS
      ⟨"app12345678901234", "tbl12345678901234", none, none⟩ emptyCacheState
      (.timeout "HTTPSConnectionPool: read timed out") 1 1
      (by decide) (by decide) (by decide)).2.2.2.1,
    (c8_upstream_error_status_mapping 418 "teapot" (by decide) emptyCacheState
      (some "app12345678901234") (some "tbl12345678901234") none none
      c8WitnessUpstream 5 5 Config.MAX_TOTAL_RECORDS
      ⟨"app12345678901234", "tbl12345678901234", none, none⟩ emptyCacheState
      (.timeout "HTTPSConnectionPool: read timed out") 1 1
      (by decide) (by decide) (by decide)).2.2.2.2⟩

/-! ## Claim C9 -/

/-- Claim C9: if an upstream page response carries zero records but a truthy
next-page cursor, the loop does not terminate there: provided the page-count
ceiling leaves room for another iteration (`fuel = n + 2` remaining, i.e. the
ceiling is not reached by this page) and the requested cap (if any) is not
yet met, the loop issues at least one further upstream request. -/
theorem c9_empty_page_with_cursor_continues
    (u : Nat → PageRequest → UpstreamOutcome) (maxRecords : Option Nat)
    (filterFormula : Option String) (s : LoopState) (n : Nat) (c : String)
    (hcap : ∀ m, maxRecords = some m → s.allRecords.length < m)
    (hup : u s.requests (buildPageRequest maxRecords filterFormula s)
      = .ok ⟨[], some c⟩)
    (hc : c ≠ "") :
    s.requests + 2 ≤ (paginate u maxRecords filterFormula (n + 2) s).reqs := by
  have hcapReached : ∀ len, len = s.allRecords.length →
      capReached maxRecords len = false := by
    intro len hlen
    cases maxRecords with
    | none => rfl
    | some m =>
      have := hcap m rfl
      simp only [capReached, decide_eq_false_iff_not]
      omega
  have htruthy : pyTruthy (some c) = true := by simp [pyTruthy, hc]
  show s.requests + 2 ≤ (paginate u maxRecords filterFormula (n + 1 + 1) s).reqs
  rw [paginate]
  rw [if_neg (by simp [hcapReached s.allRecords.length rfl])]
  rw [hup]
  dsimp only
  rw [if_pos htruthy]
  rw [paginate]
  rw [if_neg (by
    simp only [List.length_append, List.map_nil, List.length_nil, Nat.add_zero]
    simp [hcapReached s.allRecords.length rfl])]
  cases hu2 : u (s.requests + 1)
      (buildPageRequest maxRecords filterFormula
        { allRecords := s.allRecords ++ ([] : List RawRecord).map flattenRecord
        , pageCount := s.pageCount + 1, requests := s.requests + 1
        , offset := some c }) with
  | failure k => simp [LoopResult.reqs]
  | ok resp =>
    dsimp only
    by_cases ht : pyTruthy resp.offset
    · rw [if_pos ht]
      have hmono := paginate_reqs_mono u maxRecords filterFormula n
        { allRecords := (s.allRecords ++ ([] : List RawRecord).map flattenRecord)
            ++ resp.records.map flattenRecord
        , pageCount := s.pageCount + 1 + 1, requests := s.requests + 1 + 1
        , offset := resp.offset }
      simpa using hmono
    · rw [if_neg ht]
      simp [LoopResult.reqs]

/-- Upstream for the C9 witness: page 1 is empty but carries a cursor; page 2
ends pagination. -/
def c9WitnessUpstream : Nat → PageRequest → UpstreamOutcome := fun i _ =>
  if i = 0 then .ok ⟨[], some "transientCursor"⟩ else .ok ⟨[], none⟩

/-- Witness for C9: at the concrete empty-page-with-cursor upstream the loop
performs a second request. -/
theorem c9_empty_page_with_cursor_continues_witness :
    (c9WitnessUpstream initLoopState.requests
        (buildPageRequest none none initLoopState) = .ok ⟨[], some "transientCursor"⟩) ∧
    initLoopState.requests + 2 ≤ (paginate c9WitnessUpstream none none (0 + 2)
      initLoopState).reqs :=
  ⟨by decide,
    c9_empty_page_with_cursor_continues c9WitnessUpstream none none initLoopState 0
      "transientCursor" (fun m h => Option.noConfusion h) (by decide) (by decide)⟩

/-! ## Claim C10 -/

/-- Claim C10: flattening merges `record['fields']` AFTER the `'id'` and
`'createdTime'` entries, so a `fields` key named `'id'` (or `'createdTime'`)
overwrites the record identifier (or timestamp) in the flattened record;
deduplication then keys on the overwriting field value (two records with the
same flattened `'id'` value collapse to the first, whatever their upstream
identifiers); only a record whose fields contain neither key keeps its
upstream id and createdTime. -/
theorem c10_fields_overwrite_identifier (r r2 : RawRecord) :
    (∀ v, lastLookup r.fields "id" = some v →
      alistGet (flattenRecord r) "id" = some v) ∧
    (∀ v, lastLookup r.fields "createdTime" = some v →
      alistGet (flattenRecord r) "createdTime" = some v) ∧
    (lastLookup r.fields "id" = none →
      alistGet (flattenRecord r) "id" = some (JVal.str r.id)) ∧
    (lastLookup r.fields "createdTime" = none →
      alistGet (flattenRecord r) "createdTime" = some (JVal.str r.createdTime)) ∧
    (alistGet (flattenRecord r) "id" = alistGet (flattenRecord r2) "id" →
      dedupRecords [flattenRecord r, flattenRecord r2] = [flattenRecord r]) := by
  refine ⟨?_, ?_, ?_, ?_, ?_⟩
  · intro v h
    rw [flattenRecord_get_id, h]
  · intro v h
    rw [flattenRecord_get_createdTime, h]
  · intro h
    rw [flattenRecord_get_id, h]
  · intro h
    rw [flattenRecord_get_createdTime, h]
  · intro h
    simp [dedupRecords, dedupGo, h]

/-- C10 witness record: its fields carry an `'id'` key. -/
def c10RecA : RawRecord :=
  ⟨"upstreamA", "tA", [("id", JVal.str "dupField"), ("name", JVal.str "x")]⟩

/-- Second C10 witness record: different upstream id, same `'id'` field. -/
def c10RecB : RawRecord :=
  ⟨"upstreamB", "tB", [("id", JVal.str "dupField")]⟩

/-- Witness for C10: the `'id'` field value overwrites both records'
distinct upstream identifiers, and dedup then collapses them to the first. -/
theorem c10_fields_overwrite_identifier_witness :
    (lastLookup c10RecA.fields "id" = some (JVal.str "dupField")) ∧
    alistGet (flattenRecord c10RecA) "id" = some (JVal.str "dupField") ∧
    dedupRecords [flattenRecord c10RecA, flattenRecord c10RecB]
      = [flattenRecord c10RecA] :=
  ⟨by decide,
    (c10_fields_overwrite_identifier c10RecA c10RecB).1 (JVal.str "dupField") (by decide),
    (c10_fields_overwrite_identifier c10RecA c10RecB).2.2.2.2 (by decide)⟩
